import Mathlib

/-!
Verification of the lmtuners training modules.

This file gives a shallow embedding of the two pytorch-lightning modules of
the repository:

* `DiscLMTrainingModule` (lmtuners/lightning_modules/discriminative_lm.py):
  the ELECTRA replace-and-detect step, its weighted joint loss, its
  validation-end side effects and its optimizer parameter grouping.
* `LMTrainingModule` (transformers_trainers/lightning_modules/lm.py):
  the masked/causal LM step, its accuracy computation, its validation-end
  side effects and its optimizer parameter grouping.

Modelling conventions:

* Tensors of shape [B,T] with integer entries are `Mat := List (List Int)`
  (row major); per-position logits [B,T,V] are `Mat3 := List (List (List Rat))`.
  Float arithmetic is modelled exactly over `Rat`; the one place where IEEE
  behaviour matters (division by a zero denominator, which in torch yields
  inf/NaN without raising) is captured by the `TorchFloat` type.
* The wrapped transformer models are opaque collaborators: a generator or
  discriminator is an abstract function from (inputs, labels, attention_mask)
  to (loss, logits), exactly the contract the module relies on.
* The stochastic sampling step (softmax over the generator logits followed by
  torch.multinomial, lines 71-75 of discriminative_lm.py) is modelled by an
  oracle `sampleFn : Mat3 → Mat` mapping the generator logits to one sampled
  token per position; all theorems quantify over this oracle, i.e. they hold
  regardless of the sampled token values.
* Python tensor variables are mutable references.  `DiscLMTrainingModule.forward`
  mutates tensors in place (`d_inputs[mask] = ...`), so it is embedded against
  an explicit heap `Heap := List Mat` of tensor cells addressed by position;
  `.clone()` allocates a fresh cell, indexed assignment overwrites a cell, and
  rebinding a variable to a fresh tensor allocates a fresh cell.
-/

abbrev Mat : Type := List (List Int)

abbrev Mat3 : Type := List (List (List Rat))

/-- A heap of tensor cells; a Python tensor variable is an address into it. -/
abbrev Heap : Type := List Mat

/-- Allocate a fresh tensor cell holding `m`; returns the new heap and the
fresh address. -/
def alloc (h : Heap) (m : Mat) : Heap × Nat :=
  (h ++ [m], h.length)

/-- Read the tensor at address `a`. -/
def readH (h : Heap) (a : Nat) : Mat :=
  h.getD a []

/-- Overwrite the tensor cell at address `a` with `m`. -/
def writeH (h : Heap) (a : Nat) (m : Mat) : Heap :=
  h.set a m

/-- Elementwise `tensor.eq(c)`. -/
def matEqScalar (m : Mat) (c : Int) : List (List Bool) :=
  m.map (fun row => row.map (fun x => x == c))

/-- Elementwise `a == b` on two integer tensors of the same shape. -/
def matEqMat (a b : Mat) : List (List Bool) :=
  List.zipWith (fun ra rb => List.zipWith (fun x y => x == y) ra rb) a b

/-- `base[mask] = repl[mask]`: keep `base` where the mask is false, take the
replacement where it is true. -/
def maskedFill (mask : List (List Bool)) (base repl : Mat) : Mat :=
  List.zipWith
    (fun mr p =>
      List.zipWith (fun m q => if m then q.2 else q.1) mr (p.1.zip p.2))
    mask (base.zip repl)

/-- `t[cond] = False` on an integer tensor: writing the boolean False into a
long tensor stores 0 at every selected position. -/
def writeFalse (t : Mat) (cond : List (List Bool)) : Mat :=
  List.zipWith
    (fun tr cr => List.zipWith (fun x c => if c then (0 : Int) else x) tr cr)
    t cond

/-- `mask.long()`: booleans cast to 0/1 integers. -/
def maskLong (mask : List (List Bool)) : Mat :=
  mask.map (fun row => row.map (fun b => if b then (1 : Int) else 0))

/-- The value part returned by `DiscLMTrainingModule.forward`:
(g_loss, d_loss, d_scores, d_labels). -/
structure DiscFwdOut where
  g_loss : Rat
  d_loss : Rat
  d_scores : Mat3
  d_labels : Mat
deriving DecidableEq, Repr

/-- Shallow embedding of `DiscLMTrainingModule.forward`
(discriminative_lm.py lines 61-97).  `generator` and `discriminator` are the
abstract wrapped models, mapping (inputs, labels, attention_mask) to
(loss, logits); `sampleFn` is the oracle for the softmax/multinomial sampling
of lines 71-75.  The input and label tensors live in the heap `h` at
addresses `inputsA` and `labelsA`; the function returns the final heap
together with the returned values.  Step by step:
`d_inputs, d_labels = inputs.clone(), labels.clone()` allocates two fresh
cells; the generator runs on the (unmodified) inputs and labels;
`mask = labels.eq(-100)`; `d_inputs[mask] = sampled_tokens[mask]` overwrites
the d_inputs cell; `correct_preds = sampled_tokens == labels` and
`d_labels[correct_preds] = False` overwrite the d_labels cell;
`d_labels = mask.long()` rebinds d_labels to a fresh tensor; the
discriminator then runs on the current d_inputs and the rebound d_labels. -/
def discForward (generator discriminator : Mat → Mat → Mat → Rat × Mat3)
    (sampleFn : Mat3 → Mat) (h : Heap) (inputsA labelsA : Nat)
    (attention_mask : Mat) : Heap × DiscFwdOut :=
  let p1 := alloc h (readH h inputsA)
  let h1 := p1.1
  let dInA := p1.2
  let p2 := alloc h1 (readH h1 labelsA)
  let h2 := p2.1
  let dLabA := p2.2
  let g_out := generator (readH h2 inputsA) (readH h2 labelsA) attention_mask
  let sampled_tokens := sampleFn g_out.2
  let mask := matEqScalar (readH h2 labelsA) (-100)
  let h3 := writeH h2 dInA (maskedFill mask (readH h2 dInA) sampled_tokens)
  let correct_preds := matEqMat sampled_tokens (readH h3 labelsA)
  let h4 := writeH h3 dLabA (writeFalse (readH h3 dLabA) correct_preds)
  let p3 := alloc h4 (maskLong mask)
  let h5 := p3.1
  let dLabA2 := p3.2
  let d_out := discriminator (readH h5 dInA) (readH h5 dLabA2) attention_mask
  (h5, ⟨g_out.1, d_out.1, d_out.2, readH h5 dLabA2⟩)

/-- Variant of `discForward` with the two dead statements
`correct_preds = sampled_tokens == labels` and
`d_labels[correct_preds] = False` (lines 85-86) removed; everything else is
identical. -/
def discForwardNoDead (generator discriminator : Mat → Mat → Mat → Rat × Mat3)
    (sampleFn : Mat3 → Mat) (h : Heap) (inputsA labelsA : Nat)
    (attention_mask : Mat) : Heap × DiscFwdOut :=
  let p1 := alloc h (readH h inputsA)
  let h1 := p1.1
  let dInA := p1.2
  let p2 := alloc h1 (readH h1 labelsA)
  let h2 := p2.1
  let dLabA := p2.2
  let g_out := generator (readH h2 inputsA) (readH h2 labelsA) attention_mask
  let sampled_tokens := sampleFn g_out.2
  let mask := matEqScalar (readH h2 labelsA) (-100)
  let h3 := writeH h2 dInA (maskedFill mask (readH h2 dInA) sampled_tokens)
  let p3 := alloc h3 (maskLong mask)
  let h5 := p3.1
  let dLabA2 := p3.2
  let d_out := discriminator (readH h5 dInA) (readH h5 dLabA2) attention_mask
  (h5, ⟨g_out.1, d_out.1, d_out.2, readH h5 dLabA2⟩)

/-- Config for `DiscLMTrainingModule` (discriminative_lm.py lines 19-35) with
the constructor default values of `DiscLMTrainingModuleConfig.__init__`. -/
structure DiscLMTrainingModuleConfig where
  num_steps : Nat
  d_loss_weight : Rat := 50
  save_path : Option String := none
  weight_decay : Rat := 0
  learning_rate : Rat := 5 / 100000
  epsilon : Rat := 1 / 100000000
  warmup_steps : Nat := 0

/-- Total loss of `DiscLMTrainingModule.training_step`
(discriminative_lm.py lines 99-118): run `forward` on the batch and return
`g_loss + (config.d_loss_weight * d_loss)`. -/
def discTrainingStepLoss (cfg : DiscLMTrainingModuleConfig)
    (generator discriminator : Mat → Mat → Mat → Rat × Mat3)
    (sampleFn : Mat3 → Mat) (h : Heap) (inputsA labelsA : Nat)
    (attention_mask : Mat) : Rat :=
  let out := (discForward generator discriminator sampleFn h inputsA labelsA
    attention_mask).2
  out.g_loss + (cfg.d_loss_weight * out.d_loss)

/-- Total loss of `DiscLMTrainingModule.validation_step`
(discriminative_lm.py lines 120-135): same expression
`g_loss + (config.d_loss_weight * d_loss)` as in `training_step`. -/
def discValidationStepLoss (cfg : DiscLMTrainingModuleConfig)
    (generator discriminator : Mat → Mat → Mat → Rat × Mat3)
    (sampleFn : Mat3 → Mat) (h : Heap) (inputsA labelsA : Nat)
    (attention_mask : Mat) : Rat :=
  let out := (discForward generator discriminator sampleFn h inputsA labelsA
    attention_mask).2
  out.g_loss + (cfg.d_loss_weight * out.d_loss)

/-- Result of a torch floating-point division: an exact rational value, or
the IEEE non-finite results that torch produces silently (no exception) when
the denominator is zero. -/
inductive TorchFloat where
  | val (q : Rat)
  | nan
  | inf
deriving DecidableEq, Repr

/-- Torch division of a nonnegative float numerator by an integer
denominator: division by zero does not raise; 0/0 is NaN and a/0 for a > 0 is
inf.  Nonzero denominators are modelled exactly over the rationals. -/
def tfDiv (a : Rat) (b : Nat) : TorchFloat :=
  if b = 0 then (if a = 0 then TorchFloat.nan else TorchFloat.inf)
  else TorchFloat.val (a / b)

/-- Index of the first maximum of a logit row, accumulator form. -/
def argmaxAux : List Rat → Nat → Nat → Rat → Nat
  | [], _, bi, _ => bi
  | x :: xs, i, bi, bv =>
      if bv < x then argmaxAux xs (i + 1) i x else argmaxAux xs (i + 1) bi bv

/-- `torch.argmax` over a vocabulary row: index of the first maximal entry. -/
def argmaxRow : List Rat → Nat
  | [] => 0
  | x :: xs => argmaxAux xs 1 0 x

/-- `preds = torch.argmax(logits, dim=-1)`: per-position argmax over the
vocabulary axis, as an integer tensor. -/
def lmPreds (logits : Mat3) : Mat :=
  logits.map (fun row => row.map (fun v => (argmaxRow v : Int)))

/-- `labels.ne(-100)`. -/
def matNeScalar (m : Mat) (c : Int) : List (List Bool) :=
  m.map (fun row => row.map (fun x => !(x == c)))

/-- One row of boolean-mask indexing: the entries of `vr` at the positions
where `mr` is true, in order. -/
def selRow (vr mr : List Bool) : List Bool :=
  (vr.zip mr).filterMap (fun q => if q.2 then some q.1 else none)

/-- Boolean-mask indexing `v[mask]` on a [B,T] boolean tensor: the entries of
`v` at the mask-true positions, flattened in row-major order. -/
def bMaskSelect (v mask : List (List Bool)) : List Bool :=
  (List.zipWith selRow v mask).flatten

/-- `correct_preds = (preds == labels)[labels.ne(-100)]`
(lm.py line 68 and line 85). -/
def lmCorrectPreds (preds labels : Mat) : List Bool :=
  bMaskSelect (matEqMat preds labels) (matNeScalar labels (-100))

/-- `acc = torch.sum(correct_preds).float() / correct_preds.numel()`
(lm.py line 69 and line 86): the sum of a boolean tensor counts its True
entries; the division is a torch float division. -/
def lmAcc (preds labels : Mat) : TorchFloat :=
  tfDiv (((lmCorrectPreds preds labels).countP id : Nat) : Rat)
    (lmCorrectPreds preds labels).length

/-- Accuracy computed by `LMTrainingModule.training_step`
(lm.py lines 61-77): run the wrapped model (`forward` passes the batch to the
model under either label keyword, lm.py lines 48-59), take the argmax of the
logits and compare against the labels outside the sentinel positions. -/
def lmTrainingStepAcc (model : Mat → Mat → Mat → Mat → Rat × Mat3)
    (inputs labels attention_mask token_type_ids : Mat) : TorchFloat :=
  let outputs := model inputs labels attention_mask token_type_ids
  lmAcc (lmPreds outputs.2) labels

/-- Accuracy computed by `LMTrainingModule.validation_step`
(lm.py lines 79-88): the same expression as in `training_step`. -/
def lmValidationStepAcc (model : Mat → Mat → Mat → Mat → Rat × Mat3)
    (inputs labels attention_mask token_type_ids : Mat) : TorchFloat :=
  let outputs := model inputs labels attention_mask token_type_ids
  lmAcc (lmPreds outputs.2) labels

/-- The filesystem/callback side effects of a `validation_end` call:
which model-weight saves (`save_pretrained`) were performed, identified by
their target directory, and whether the external checkpoint callback was
invoked. -/
structure ValEndEffects where
  savedPaths : List String
  calledCheckpointFn : Bool
deriving DecidableEq, Repr

/-- Side effects of `LMTrainingModule.validation_end` (lm.py lines 90-116):
everything effectful is guarded by `if self.trainer.proc_rank == 0`; inside
it, the model weights are saved to `save_path/{epoch}-{step}` only when
`config.save_on_val` holds, and the checkpoint callback is invoked whenever
one was supplied. -/
def lmValidationEnd (procRank : Nat) (saveOnVal : Bool)
    (hasCheckpointFn : Bool) (savePath : String) (currentEpoch globalStep : Nat) :
    ValEndEffects :=
  if procRank = 0 then
    { savedPaths :=
        if saveOnVal then
          [savePath ++ "/" ++ toString currentEpoch ++ "-" ++ toString globalStep]
        else []
      calledCheckpointFn := hasCheckpointFn }
  else { savedPaths := [], calledCheckpointFn := false }

/-- Side effects of `DiscLMTrainingModule.validation_end`
(discriminative_lm.py lines 137-164): `_save_model` is called for the
generator and for the discriminator unconditionally, and the checkpoint
callback is invoked whenever one was supplied.  The source never consults
`self.trainer.proc_rank`; the `procRank` argument records the caller-supplied
rank that the code ignores. -/
def discValidationEnd (procRank : Nat) (hasCheckpointFn : Bool)
    (savePath : String) (currentEpoch globalStep : Nat) : ValEndEffects :=
  { savedPaths :=
      [savePath ++ "/generator/" ++ toString currentEpoch ++ "-" ++
        toString globalStep,
       savePath ++ "/discriminator/" ++ toString currentEpoch ++ "-" ++
        toString globalStep]
    calledCheckpointFn := hasCheckpointFn }

/-- `no_decay = ["bias", "LayerNorm.weight"]` (lm.py line 119,
discriminative_lm.py line 176). -/
def no_decay : List String := ["bias", "LayerNorm.weight"]

/-- Does the pattern occur at the head of the text? -/
def matchHere : List Char → List Char → Bool
  | [], _ => true
  | _ :: _, [] => false
  | c :: cs, d :: ds => c == d && matchHere cs ds

/-- Does the pattern occur anywhere in the text? -/
def subSearch (pat : List Char) : List Char → Bool
  | [] => matchHere pat []
  | c :: ts => matchHere pat (c :: ts) || subSearch pat ts

/-- Python substring test `nd in n` on parameter names. -/
def strContains (n nd : String) : Bool :=
  subSearch nd.toList n.toList

/-- `any(nd in n for nd in no_decay)`. -/
def inNoDecay (n : String) : Bool :=
  no_decay.any (fun nd => strContains n nd)

/-- The two optimizer parameter groups built by
`LMTrainingModule.configure_optimizers` (lm.py lines 118-137), as
(parameter names, weight_decay) pairs: first the group of parameters whose
name contains no no-decay marker with the configured weight decay, then the
group of parameters whose name contains one with weight decay 0. -/
def lmOptimizerGroups (params : List String) (weight_decay : Rat) :
    (List String × Rat) × (List String × Rat) :=
  ((params.filter (fun n => !(inNoDecay n)), weight_decay),
   (params.filter (fun n => inNoDecay n), 0))

/-- The two optimizer parameter groups built by
`DiscLMTrainingModule.configure_optimizers` (discriminative_lm.py lines
175-200): each group concatenates the matching generator parameters with the
matching discriminator parameters. -/
def discOptimizerGroups (genParams discParams : List String)
    (weight_decay : Rat) : (List String × Rat) × (List String × Rat) :=
  ((genParams.filter (fun n => !(inNoDecay n)) ++
      discParams.filter (fun n => !(inNoDecay n)), weight_decay),
   (genParams.filter (fun n => inNoDecay n) ++
      discParams.filter (fun n => inNoDecay n), 0))

/-- Inputs of the spec scenario: B=2, T=4, V=10. -/
def scnInputs : Mat := [[10, 11, 12, 13], [20, 21, 22, 23]]

/-- Labels of the spec scenario: sentinel -100 except at positions (0,1)
and (1,0). -/
def scnLabels : Mat := [[-100, 5, -100, -100], [2, -100, -100, -100]]

/-- Attention mask of the spec scenario. -/
def scnAttn : Mat := [[1, 1, 1, 1], [1, 1, 1, 1]]

/-- A concrete generator model: constant loss 2. -/
def scnGen : Mat → Mat → Mat → Rat × Mat3 := fun _ _ _ => (2, [])

/-- A concrete discriminator model: constant loss 3. -/
def scnDisc : Mat → Mat → Mat → Rat × Mat3 := fun _ _ _ => (3, [])

/-- A forced deterministic sampler: every sampled token is 7. -/
def scnSample : Mat3 → Mat := fun _ => [[7, 7, 7, 7], [7, 7, 7, 7]]

/-- A concrete LM model for witnesses: constant loss 0 and constant logits
of shape [2,4,3] whose argmax is 0 at every position. -/
def lmModelC : Mat → Mat → Mat → Mat → Rat × Mat3 :=
  fun _ _ _ _ =>
    (0, [[[1, 0, 0], [1, 0, 0], [1, 0, 0], [1, 0, 0]],
         [[1, 0, 0], [1, 0, 0], [1, 0, 0], [1, 0, 0]]])

/-- A label tensor whose every entry is the sentinel -100. -/
def allSentinelLabels : Mat :=
  [[-100, -100, -100, -100], [-100, -100, -100, -100]]

theorem readH_append_lt (h : Heap) (m : Mat) (a : Nat) (ha : a < h.length) :
    readH (h ++ [m]) a = readH h a := List.getD_append h [m] [] a ha

theorem readH_append_len (h : Heap) (m : Mat) : readH (h ++ [m]) h.length = m := by
  simp [readH, List.getD_append_right]

theorem readH_writeH_ne (h : Heap) (a b : Nat) (m : Mat) (hab : a ≠ b) :
    readH (writeH h a m) b = readH h b := by
  simp [readH, writeH, List.getD_eq_getElem?_getD, List.getElem?_set_ne hab]

theorem length_writeH (h : Heap) (a : Nat) (m : Mat) :
    (writeH h a m).length = h.length := List.length_set h a m

/-- Reading the d_inputs cell of the final heap of `discForward` sees through
the trailing allocation and the dead d_labels write. -/
theorem dIn_read_full (h : Heap) (x y v w mk : Mat) :
    readH ((writeH (writeH (h ++ [x] ++ [y]) h.length v) (h ++ [x]).length w)
        ++ [mk]) h.length
      = readH (writeH (h ++ [x] ++ [y]) h.length v) h.length := by
  rw [readH_append_lt, readH_writeH_ne]
  · simp only [List.length_append, List.length_cons, List.length_nil]
    omega
  · simp only [length_writeH, List.length_append, List.length_cons,
      List.length_nil]
    omega

/-- Reading the d_inputs cell of the final heap of `discForwardNoDead` sees
through the trailing allocation. -/
theorem dIn_read_nodead (h : Heap) (x y v mk : Mat) :
    readH ((writeH (h ++ [x] ++ [y]) h.length v) ++ [mk]) h.length
      = readH (writeH (h ++ [x] ++ [y]) h.length v) h.length := by
  rw [readH_append_lt]
  simp only [length_writeH, List.length_append, List.length_cons,
    List.length_nil]
  omega

/-- Cells that were already allocated before a `discForward` call are
untouched by its final heap. -/
theorem readH_final_frame (h : Heap) (x y v w mk : Mat) (a : Nat)
    (ha : a < h.length) :
    readH ((writeH (writeH (h ++ [x] ++ [y]) h.length v) (h ++ [x]).length w)
        ++ [mk]) a
      = readH h a := by
  rw [readH_append_lt, readH_writeH_ne, readH_writeH_ne, readH_append_lt,
    readH_append_lt]
  all_goals
    try simp only [length_writeH, List.length_append, List.length_cons,
      List.length_nil]
    all_goals omega

/-- Claim C1: the spec says the returned discriminator target equals the
boolean mask (labels != -100) cast to integers, which at the scenario labels
would be [[0,1,0,0],[1,0,0,0]].  The code instead computes
`mask = labels.eq(-100)` and returns `mask.long()`: at the scenario it
returns [[1,0,1,1],[0,1,1,1]], the exact complement, so the claim fails on
the code (the code contradicts its own comments and the ELECTRA scheme). -/
theorem C1_dLabels_code_eval :
    (discForward scnGen scnDisc scnSample [scnInputs, scnLabels] 0 1
        scnAttn).2.d_labels = [[1, 0, 1, 1], [0, 1, 1, 1]]
      ∧ (discForward scnGen scnDisc scnSample [scnInputs, scnLabels] 0 1
        scnAttn).2.d_labels ≠ [[0, 1, 0, 0], [1, 0, 0, 0]] := by
  decide

/-- Claim C2: the spec says the discriminator input takes the sampled token
where labels != -100 and the original input token elsewhere, which with the
constant-7 sampler would be [[10,7,12,13],[7,21,22,23]].  The code instead
overwrites the positions where labels == -100: the d_inputs tensor passed to
the discriminator (heap cell 2 of the final heap) is [[7,11,7,7],[20,7,7,7]],
so the claim fails on the code. -/
theorem C2_dInputs_code_eval :
    readH (discForward scnGen scnDisc scnSample [scnInputs, scnLabels] 0 1
        scnAttn).1 2 = [[7, 11, 7, 7], [20, 7, 7, 7]]
      ∧ readH (discForward scnGen scnDisc scnSample [scnInputs, scnLabels] 0 1
        scnAttn).1 2 ≠ [[10, 7, 12, 13], [7, 21, 22, 23]] := by
  decide

/-- Claim C3: the correct_preds computation is dead logic: for every batch,
every pair of models and every sampling outcome, `forward` with the
statements `correct_preds = sampled_tokens == labels` and
`d_labels[correct_preds] = False` removed returns exactly the same
(g_loss, d_loss, d_scores, d_labels), because the in-place write to the old
d_labels tensor is discarded by the subsequent rebinding `d_labels =
mask.long()`; in particular the returned d_labels never depends on the
comparison of sampled tokens with labels. -/
theorem C3_correct_preds_dead (generator discriminator :
      Mat → Mat → Mat → Rat × Mat3) (sampleFn : Mat3 → Mat) (h : Heap)
    (inputsA labelsA : Nat) (attention_mask : Mat) :
    (discForward generator discriminator sampleFn h inputsA labelsA
        attention_mask).2
      = (discForwardNoDead generator discriminator sampleFn h inputsA labelsA
        attention_mask).2 := by
  unfold discForward discForwardNoDead
  simp only [alloc]
  rw [readH_append_len, readH_append_len, dIn_read_full, dIn_read_nodead]

/-- Claim C4: for every batch and every d_loss_weight ≥ 0, training_step and
validation_step both return g_loss + d_loss_weight * d_loss with g_loss and
d_loss taken from forward; with weight 0 the total collapses to g_loss, and
the constructor default of d_loss_weight is 50. -/
theorem C4_total_loss (cfg : DiscLMTrainingModuleConfig)
    (generator discriminator : Mat → Mat → Mat → Rat × Mat3)
    (sampleFn : Mat3 → Mat) (h : Heap) (inputsA labelsA : Nat)
    (attention_mask : Mat) (hw : 0 ≤ cfg.d_loss_weight) :
    discTrainingStepLoss cfg generator discriminator sampleFn h inputsA
        labelsA attention_mask
      = (discForward generator discriminator sampleFn h inputsA labelsA
          attention_mask).2.g_loss
        + cfg.d_loss_weight
          * (discForward generator discriminator sampleFn h inputsA labelsA
            attention_mask).2.d_loss
    ∧ discValidationStepLoss cfg generator discriminator sampleFn h inputsA
        labelsA attention_mask
      = (discForward generator discriminator sampleFn h inputsA labelsA
          attention_mask).2.g_loss
        + cfg.d_loss_weight
          * (discForward generator discriminator sampleFn h inputsA labelsA
            attention_mask).2.d_loss
    ∧ (cfg.d_loss_weight = 0 →
        discTrainingStepLoss cfg generator discriminator sampleFn h inputsA
            labelsA attention_mask
          = (discForward generator discriminator sampleFn h inputsA labelsA
            attention_mask).2.g_loss)
    ∧ ({ num_steps := 1 } : DiscLMTrainingModuleConfig).d_loss_weight = 50 := by
  refine ⟨rfl, rfl, fun h0 => ?_, rfl⟩
  simp [discTrainingStepLoss, h0]

/-- Witness for C4 at the concrete scenario batch and default-style config. -/
theorem C4_total_loss_witness :
    discTrainingStepLoss { num_steps := 1 } scnGen scnDisc scnSample
        [scnInputs, scnLabels] 0 1 scnAttn
      = (discForward scnGen scnDisc scnSample [scnInputs, scnLabels] 0 1
          scnAttn).2.g_loss
        + ({ num_steps := 1 } : DiscLMTrainingModuleConfig).d_loss_weight
          * (discForward scnGen scnDisc scnSample [scnInputs, scnLabels] 0 1
            scnAttn).2.d_loss :=
  (C4_total_loss { num_steps := 1 } scnGen scnDisc scnSample
    [scnInputs, scnLabels] 0 1 scnAttn (by norm_num)).1

/-- Claim C8: forward never mutates its inputs or labels tensors: d_inputs
and d_labels are clones made before any model call, so for every batch whose
input and label tensors are valid heap cells, the cells holding the
generator-side inputs and labels are unchanged in the final heap. -/
theorem C8_no_input_mutation (generator discriminator :
      Mat → Mat → Mat → Rat × Mat3) (sampleFn : Mat3 → Mat) (h : Heap)
    (inputsA labelsA : Nat) (attention_mask : Mat)
    (hi : inputsA < h.length) (hl : labelsA < h.length) :
    readH (discForward generator discriminator sampleFn h inputsA labelsA
        attention_mask).1 inputsA = readH h inputsA
      ∧ readH (discForward generator discriminator sampleFn h inputsA labelsA
        attention_mask).1 labelsA = readH h labelsA := by
  unfold discForward
  simp only [alloc]
  exact ⟨readH_final_frame h _ _ _ _ _ inputsA hi,
    readH_final_frame h _ _ _ _ _ labelsA hl⟩

/-- Witness for C8 at the concrete scenario heap. -/
theorem C8_no_input_mutation_witness :
    readH (discForward scnGen scnDisc scnSample [scnInputs, scnLabels] 0 1
        scnAttn).1 0 = readH [scnInputs, scnLabels] 0
      ∧ readH (discForward scnGen scnDisc scnSample [scnInputs, scnLabels] 0 1
        scnAttn).1 1 = readH [scnInputs, scnLabels] 1 :=
  C8_no_input_mutation scnGen scnDisc scnSample [scnInputs, scnLabels] 0 1
    scnAttn (by decide) (by decide)

/-- Claim C10: in LMTrainingModule.validation_end, at rank 0 with a
checkpoint callback supplied, the callback is invoked for every value of
save_on_val: its invocation does not depend on whether weights were
persisted. -/
theorem C10_checkpoint_fn_unconditional (saveOnVal : Bool) (savePath : String)
    (currentEpoch globalStep : Nat) :
    (lmValidationEnd 0 saveOnVal true savePath currentEpoch
      globalStep).calledCheckpointFn = true := by
  simp [lmValidationEnd]

/-- Row-level counting facts about the accuracy mask selection: over one row,
the selected entries number exactly the non-sentinel labels, and the selected
True entries number exactly the non-sentinel positions where the prediction
equals the label. -/
theorem selRow_counts (p l : List Int) (h : p.length = l.length) :
    (selRow (List.zipWith (fun x y => x == y) p l)
        (l.map (fun x => !(x == -100)))).length
      = l.countP (fun x => !(x == -100))
    ∧ (selRow (List.zipWith (fun x y => x == y) p l)
        (l.map (fun x => !(x == -100)))).countP id
      = (p.zip l).countP (fun q => !(q.2 == -100) && (q.1 == q.2)) := by
  induction p generalizing l with
  | nil =>
    cases l with
    | nil => simp [selRow]
    | cons b bs => simp at h
  | cons a as ih =>
    cases l with
    | nil => simp at h
    | cons b bs =>
      simp only [List.length_cons, Nat.succ_inj] at h
      have ihb := ih bs h
      by_cases hb : b = -100
      · subst hb
        simp only [List.zipWith_cons_cons, List.map_cons, selRow,
          List.zip_cons_cons, List.filterMap_cons, List.countP_cons,
          List.zip_cons_cons] at *
        simp [selRow, ihb.1, ihb.2]
      · simp [selRow, List.filterMap_cons, hb, List.countP_cons, ihb.1, ihb.2]
        simpa [selRow] using ihb

/-- Tensor-level counting facts about `correct_preds`: when predictions and
labels have the same shape, `correct_preds.numel()` counts the non-sentinel
label positions and `torch.sum(correct_preds)` counts the non-sentinel
positions whose prediction equals the label. -/
theorem lmCorrectPreds_counts (P L : List (List Int))
    (h : P.map List.length = L.map List.length) :
    (lmCorrectPreds P L).length = L.flatten.countP (fun x => !(x == -100))
    ∧ (lmCorrectPreds P L).countP id
      = (P.flatten.zip L.flatten).countP
        (fun q => !(q.2 == -100) && (q.1 == q.2)) := by
  induction P generalizing L with
  | nil =>
    have hL : L = [] := by
      cases L with
      | nil => rfl
      | cons l Ls => simp at h
    subst hL
    simp [lmCorrectPreds, bMaskSelect, matEqMat, matNeScalar]
  | cons p Ps ih =>
    cases L with
    | nil => simp at h
    | cons l Ls =>
      simp only [List.map_cons, List.cons.injEq] at h
      have hh := selRow_counts p l h.1
      have hrest := ih Ls h.2
      simp only [lmCorrectPreds, bMaskSelect, matEqMat, matNeScalar,
        List.zipWith_cons_cons, List.map_cons, List.flatten_cons,
        List.length_append, List.countP_append] at hrest ⊢
      rw [List.zip_append h.1, List.countP_append]
      exact ⟨by rw [hh.1, hrest.1], by rw [hh.2, hrest.2]⟩

/-- Claim C5: in LMTrainingModule.training_step and validation_step, for
every batch whose labels contain at least one entry different from -100 (and
whose predictions have the label tensor's shape), accuracy equals the number
of positions with label ≠ -100 where the argmax of the logits over the
vocabulary axis equals the label, divided by the number of positions with
label ≠ -100; sentinel positions contribute to neither count. -/
theorem C5_accuracy (model : Mat → Mat → Mat → Mat → Rat × Mat3)
    (inputs labels attention_mask token_type_ids : Mat)
    (hshape : (lmPreds (model inputs labels attention_mask
        token_type_ids).2).map List.length = labels.map List.length)
    (hnz : 0 < labels.flatten.countP (fun x => !(x == -100))) :
    lmTrainingStepAcc model inputs labels attention_mask token_type_ids
      = TorchFloat.val
        ((((lmPreds (model inputs labels attention_mask
              token_type_ids).2).flatten.zip labels.flatten).countP
            (fun q => !(q.2 == -100) && (q.1 == q.2)) : Nat)
          / (labels.flatten.countP (fun x => !(x == -100)) : Nat))
    ∧ lmValidationStepAcc model inputs labels attention_mask token_type_ids
      = TorchFloat.val
        ((((lmPreds (model inputs labels attention_mask
              token_type_ids).2).flatten.zip labels.flatten).countP
            (fun q => !(q.2 == -100) && (q.1 == q.2)) : Nat)
          / (labels.flatten.countP (fun x => !(x == -100)) : Nat)) := by
  have hc := lmCorrectPreds_counts
    (lmPreds (model inputs labels attention_mask token_type_ids).2) labels
    hshape
  have key : lmAcc (lmPreds (model inputs labels attention_mask
      token_type_ids).2) labels
      = TorchFloat.val
        ((((lmPreds (model inputs labels attention_mask
              token_type_ids).2).flatten.zip labels.flatten).countP
            (fun q => !(q.2 == -100) && (q.1 == q.2)) : Nat)
          / (labels.flatten.countP (fun x => !(x == -100)) : Nat)) := by
    unfold lmAcc
    rw [hc.1, hc.2]
    unfold tfDiv
    rw [if_neg (by omega)]
  exact ⟨key, key⟩

/-- Witness for C5 at a concrete batch: labels with two non-sentinel
entries, a model whose argmax is 0 everywhere. -/
theorem C5_accuracy_witness :
    lmTrainingStepAcc lmModelC scnInputs scnLabels scnAttn scnAttn
      = TorchFloat.val
        ((((lmPreds (lmModelC scnInputs scnLabels scnAttn
              scnAttn).2).flatten.zip scnLabels.flatten).countP
            (fun q => !(q.2 == -100) && (q.1 == q.2)) : Nat)
          / (scnLabels.flatten.countP (fun x => !(x == -100)) : Nat)) :=
  (C5_accuracy lmModelC scnInputs scnLabels scnAttn scnAttn (by decide)
    (by decide)).1

/-- When every label is the sentinel, the boolean-mask selection is empty:
`correct_preds` has no entries, whatever the predictions are. -/
theorem lmCorrectPreds_all_sentinel (preds labels : Mat)
    (hall : ∀ row ∈ labels, ∀ x ∈ row, x = (-100 : Int)) :
    lmCorrectPreds preds labels = [] := by
  induction preds generalizing labels with
  | nil => simp [lmCorrectPreds, bMaskSelect, matEqMat]
  | cons p Ps ih =>
    cases labels with
    | nil => simp [lmCorrectPreds, bMaskSelect, matEqMat, matNeScalar]
    | cons l Ls =>
      have hsel : selRow (List.zipWith (fun x y => x == y) p l)
          (l.map (fun x => !(x == -100))) = [] := by
        unfold selRow
        rw [List.filterMap_eq_nil_iff]
        intro q hq
        have hq2 := (List.of_mem_zip hq).2
        obtain ⟨x, hx, hxq⟩ := List.mem_map.mp hq2
        have hx100 : x = -100 := hall l (by simp) x hx
        subst hx100
        simp at hxq
        simp [← hxq]
      have htail := ih Ls (fun row hr => hall row (by simp [hr]))
      simp only [lmCorrectPreds, bMaskSelect, matEqMat, matNeScalar,
        List.zipWith_cons_cons, List.map_cons, List.flatten_cons] at htail ⊢
      rw [hsel, htail]
      simp

/-- Counterexample to claim C6: on an all-sentinel label batch the accuracy
computation does not raise; `correct_preds.numel()` is 0 and the division
silently evaluates to the float value NaN. -/
theorem C6_counterexample :
    lmTrainingStepAcc lmModelC scnInputs allSentinelLabels scnAttn scnAttn
      = TorchFloat.nan
    ∧ (lmCorrectPreds (lmPreds (lmModelC scnInputs allSentinelLabels scnAttn
        scnAttn).2) allSentinelLabels).length = 0 := by
  decide

/-- Claim C6 (amended): when every entry of a batch's label tensor equals
the sentinel -100, the accuracy computation of training_step and
validation_step silently divides zero by zero and produces the float value
NaN; no error is raised. -/
theorem C6_all_sentinel_nan (model : Mat → Mat → Mat → Mat → Rat × Mat3)
    (inputs labels attention_mask token_type_ids : Mat)
    (hall : ∀ row ∈ labels, ∀ x ∈ row, x = (-100 : Int)) :
    lmTrainingStepAcc model inputs labels attention_mask token_type_ids
      = TorchFloat.nan
    ∧ lmValidationStepAcc model inputs labels attention_mask token_type_ids
      = TorchFloat.nan := by
  have key : lmAcc (lmPreds (model inputs labels attention_mask
      token_type_ids).2) labels = TorchFloat.nan := by
    unfold lmAcc
    rw [lmCorrectPreds_all_sentinel _ labels hall]
    simp [tfDiv]
  exact ⟨key, key⟩

/-- Witness for the amended C6 at the concrete all-sentinel batch. -/
theorem C6_all_sentinel_nan_witness :
    lmValidationStepAcc lmModelC scnInputs allSentinelLabels scnAttn scnAttn
      = TorchFloat.nan :=
  (C6_all_sentinel_nan lmModelC scnInputs allSentinelLabels scnAttn scnAttn
    (by decide)).2

/-- Counterexample to claim C7: at rank 1,
DiscLMTrainingModule.validation_end still performs model-weight saves and
still invokes the checkpoint callback — the source has no rank guard. -/
theorem C7_counterexample :
    (discValidationEnd 1 true "save" 0 0).savedPaths ≠ []
    ∧ (discValidationEnd 1 true "save" 0 0).calledCheckpointFn = true := by
  constructor
  · simp [discValidationEnd]
  · rfl

/-- Claim C7 (amended): only LMTrainingModule.validation_end is guarded by
the caller-supplied rank: at any rank other than 0 it persists nothing and
invokes no callback, and even at rank 0 weight persistence requires
save_on_val.  DiscLMTrainingModule.validation_end is independent of the
rank: it saves both sub-models and invokes the supplied callback at every
rank. -/
theorem C7_leader_guard (procRank : Nat) (saveOnVal hasCheckpointFn : Bool)
    (savePath : String) (currentEpoch globalStep : Nat) :
    (procRank ≠ 0 →
      lmValidationEnd procRank saveOnVal hasCheckpointFn savePath currentEpoch
        globalStep = ⟨[], false⟩)
    ∧ (saveOnVal = false →
      (lmValidationEnd procRank saveOnVal hasCheckpointFn savePath currentEpoch
        globalStep).savedPaths = [])
    ∧ discValidationEnd procRank hasCheckpointFn savePath currentEpoch
        globalStep
      = discValidationEnd 0 hasCheckpointFn savePath currentEpoch globalStep
    ∧ (discValidationEnd procRank hasCheckpointFn savePath currentEpoch
        globalStep).savedPaths.length = 2
    ∧ (discValidationEnd procRank hasCheckpointFn savePath currentEpoch
        globalStep).calledCheckpointFn = hasCheckpointFn := by
  refine ⟨fun hr => ?_, fun hs => ?_, rfl, rfl, rfl⟩
  · simp [lmValidationEnd, hr]
  · by_cases h0 : procRank = 0 <;> simp [lmValidationEnd, h0, hs]

/-- Witness for the amended C7 at rank 1. -/
theorem C7_leader_guard_witness :
    lmValidationEnd 1 true true "p" 0 0 = ⟨[], false⟩ :=
  (C7_leader_guard 1 true true "p" 0 0).1 (by decide)

/-- Claim C9: configure_optimizers of both modules places every named
parameter in exactly one of the two groups: names containing a no-decay
marker (bias, LayerNorm.weight) land in the group with weight_decay 0 and
not in the other; all other names land in the group with the configured
weight decay and not in the other; "layer.0.bias" is a no-decay name and
"layer.0.weight" is not. -/
theorem C9_param_partition (params genParams discParams : List String)
    (wd : Rat) :
    (∀ n ∈ params,
      (inNoDecay n = true →
        n ∈ (lmOptimizerGroups params wd).2.1
        ∧ n ∉ (lmOptimizerGroups params wd).1.1)
      ∧ (inNoDecay n = false →
        n ∈ (lmOptimizerGroups params wd).1.1
        ∧ n ∉ (lmOptimizerGroups params wd).2.1))
    ∧ (lmOptimizerGroups params wd).1.2 = wd
    ∧ (lmOptimizerGroups params wd).2.2 = 0
    ∧ (∀ n, n ∈ genParams ∨ n ∈ discParams →
      (inNoDecay n = true →
        n ∈ (discOptimizerGroups genParams discParams wd).2.1
        ∧ n ∉ (discOptimizerGroups genParams discParams wd).1.1)
      ∧ (inNoDecay n = false →
        n ∈ (discOptimizerGroups genParams discParams wd).1.1
        ∧ n ∉ (discOptimizerGroups genParams discParams wd).2.1))
    ∧ (discOptimizerGroups genParams discParams wd).1.2 = wd
    ∧ (discOptimizerGroups genParams discParams wd).2.2 = 0
    ∧ inNoDecay "layer.0.bias" = true
    ∧ inNoDecay "layer.0.weight" = false := by
  refine ⟨fun n hn => ⟨fun hd => ?_, fun hd => ?_⟩, rfl, rfl,
    fun n hn => ⟨fun hd => ?_, fun hd => ?_⟩, rfl, rfl, by decide, by decide⟩
  · simp [lmOptimizerGroups, List.mem_filter, hn, hd]
  · simp [lmOptimizerGroups, List.mem_filter, hn, hd]
  · simp only [discOptimizerGroups, List.mem_append, List.mem_filter]
    simp [hd]
    tauto
  · simp only [discOptimizerGroups, List.mem_append, List.mem_filter]
    simp [hd]
    tauto

/-- Witness for C9: "layer.0.bias" lands in the no-decay group and not in
the decay group. -/
theorem C9_param_partition_witness :
    "layer.0.bias" ∈ (lmOptimizerGroups ["layer.0.bias", "layer.0.weight"]
        1).2.1
    ∧ "layer.0.bias" ∉ (lmOptimizerGroups ["layer.0.bias", "layer.0.weight"]
        1).1.1 :=
  (((C9_param_partition ["layer.0.bias", "layer.0.weight"] [] [] 1).1
    "layer.0.bias" (by simp)).1 (by decide))
